import Mathlib

/-!
Verification of the order–payment–inventory core of the shop backend.

The definitions below are a shallow embedding of the Python source:

* `WarehouseStock` and its three mutators follow `src/inventory/models.py`
  (`reserve_stock`, `release_reservation`, `fulfill_reservation`).
* `MpesaTransaction`, the callback processor, the webhook views and the
  reconciliation sweep follow `src/payments/models.py`, `services.py`,
  `views.py` and `tasks.py`.
* The order endpoints and the signal receivers they trigger follow
  `src/orders/views.py`, `src/orders/signals.py`, `src/inventory/signals.py`
  and `src/products/signals.py`.

Django model fields are integers (Python ints), so quantities are embedded as
`Int`; status fields are `CharField`s with fixed choice lists, embedded as
`String`. Fallible view/service paths return an explicit result value.
-/

namespace ShopBackend

/-! ## Stock records (src/inventory/models.py, WarehouseStock) -/

/-- Stock levels per warehouse per product (`WarehouseStock`). Only the three
quantity columns take part in the verified operations; locations, reorder
settings and timestamps are omitted. -/
structure WarehouseStock where
  quantity : Int := 0
  reserved_quantity : Int := 0
  damaged_quantity : Int := 0
  deriving Repr, DecidableEq

namespace WarehouseStock

/-- `available_quantity` property: `max(0, quantity - reserved - damaged)`. -/
def available_quantity (s : WarehouseStock) : Int :=
  max 0 (s.quantity - s.reserved_quantity - s.damaged_quantity)

/-- `reserve_stock(quantity)`: succeeds (and saves) only when
`available_quantity >= quantity`; returns the resulting row together with the
boolean result the method returns. -/
def reserve_stock (s : WarehouseStock) (quantity : Int) : WarehouseStock × Bool :=
  if quantity ≤ s.available_quantity then
    ({ s with reserved_quantity := s.reserved_quantity + quantity }, true)
  else
    (s, false)

/-- `release_reservation(quantity)`: `reserved = max(0, reserved - quantity)`. -/
def release_reservation (s : WarehouseStock) (quantity : Int) : WarehouseStock :=
  { s with reserved_quantity := max 0 (s.reserved_quantity - quantity) }

/-- `fulfill_reservation(quantity)`: clamps both `reserved` and `quantity`
at zero after subtracting. -/
def fulfill_reservation (s : WarehouseStock) (quantity : Int) : WarehouseStock :=
  { s with reserved_quantity := max 0 (s.reserved_quantity - quantity),
           quantity := max 0 (s.quantity - quantity) }

end WarehouseStock

/-- The Stock Ledger invariant claimed in the spec:
`0 ≤ reserved + damaged ≤ quantity`. -/
def stockInvariant (s : WarehouseStock) : Prop :=
  0 ≤ s.reserved_quantity + s.damaged_quantity ∧
    s.reserved_quantity + s.damaged_quantity ≤ s.quantity

instance (s : WarehouseStock) : Decidable (stockInvariant s) :=
  inferInstanceAs (Decidable (_ ∧ _))

/-- Per-field non-negativity, declared on the model via
`MinValueValidator(0)` on each of the three quantity columns. -/
def stockFieldsNonneg (s : WarehouseStock) : Prop :=
  0 ≤ s.quantity ∧ 0 ≤ s.reserved_quantity ∧ 0 ≤ s.damaged_quantity

instance (s : WarehouseStock) : Decidable (stockFieldsNonneg s) :=
  inferInstanceAs (Decidable (_ ∧ _))

/-! ## Claims C3 and C4: the pure stock operations -/

/-- **C3 counterexample.** The claim states that every Stock Ledger operation
preserves `0 ≤ reserved + damaged ≤ quantity` for all argument quantities
`≥ 0`. `fulfill_reservation` does not: on the row
`quantity = 10, reserved = 0, damaged = 8` (invariant holds, all fields
non-negative) fulfilling 5 units clamps `reserved` at 0 but drops `quantity`
to 5, leaving `reserved + damaged = 8 > 5`. -/
theorem C3_counterexample :
    stockFieldsNonneg ⟨10, 0, 8⟩ ∧ stockInvariant ⟨10, 0, 8⟩ ∧ (0 : Int) ≤ 5 ∧
      ¬ stockInvariant (WarehouseStock.fulfill_reservation ⟨10, 0, 8⟩ 5) := by
  refine ⟨by decide, by decide, by decide, ?_⟩
  decide

/-- **C3 (amended).** `reserve_stock` and `release_reservation` preserve the
invariant `0 ≤ reserved + damaged ≤ quantity` for every quantity `≥ 0` (given
the per-field non-negativity the model's validators declare);
`fulfill_reservation` preserves it only when the fulfilled quantity does not
exceed `reserved_quantity`. -/
theorem C3_stock_ops_preserve_invariant (s : WarehouseStock) (qty : Int)
    (hq : 0 ≤ qty) (hf : stockFieldsNonneg s) (hinv : stockInvariant s) :
    stockInvariant (s.reserve_stock qty).1 ∧
    stockInvariant (s.release_reservation qty) ∧
    (qty ≤ s.reserved_quantity → stockInvariant (s.fulfill_reservation qty)) := by
  obtain ⟨hqn, hrn, hdn⟩ := hf
  obtain ⟨hinv0, hinv1⟩ := hinv
  refine ⟨?_, ?_, ?_⟩
  · unfold WarehouseStock.reserve_stock WarehouseStock.available_quantity
    split
    · rename_i h
      constructor <;> simp only [] <;> omega
    · exact ⟨hinv0, hinv1⟩
  · unfold WarehouseStock.release_reservation stockInvariant
    constructor <;> simp only [] <;> omega
  · intro hle
    unfold WarehouseStock.fulfill_reservation stockInvariant
    constructor <;> simp only [] <;> omega

/-- Witness for `C3_stock_ops_preserve_invariant` at
`quantity = 10, reserved = 2, damaged = 1`, reserving 3. -/
theorem C3_stock_ops_preserve_invariant_witness :
    stockInvariant ((⟨10, 2, 1⟩ : WarehouseStock).reserve_stock 3).1 :=
  (C3_stock_ops_preserve_invariant ⟨10, 2, 1⟩ 3 (by decide) (by decide)
    (by decide)).1

/-- **C4 (confirmed).** `reserve_stock` succeeds iff
`available_quantity ≥ qty`; on success it adds exactly `qty` to
`reserved_quantity` leaving `quantity` and `damaged_quantity` unchanged; on
failure it returns the row unchanged. The spec scenario follows: from
`quantity = 10, reserved = 0`, reserving 4 leaves `available = 6`; reserving 7
then fails with `reserved` still 4; releasing 4 restores `reserved = 0`. -/
theorem C4_reserve_release (s : WarehouseStock) (qty : Int) (hq : 0 ≤ qty) :
    ((s.reserve_stock qty).2 = true ↔ qty ≤ s.available_quantity) ∧
    ((s.reserve_stock qty).2 = true →
      (s.reserve_stock qty).1 =
        { s with reserved_quantity := s.reserved_quantity + qty }) ∧
    ((s.reserve_stock qty).2 = false → (s.reserve_stock qty).1 = s) ∧
    (((⟨10, 0, 0⟩ : WarehouseStock).reserve_stock 4).2 = true ∧
      ((⟨10, 0, 0⟩ : WarehouseStock).reserve_stock 4).1.available_quantity = 6 ∧
      ((((⟨10, 0, 0⟩ : WarehouseStock).reserve_stock 4).1.reserve_stock 7).2 = false ∧
        (((⟨10, 0, 0⟩ : WarehouseStock).reserve_stock 4).1.reserve_stock 7).1.reserved_quantity = 4) ∧
      (((⟨10, 0, 0⟩ : WarehouseStock).reserve_stock 4).1.release_reservation 4).reserved_quantity = 0) := by
  refine ⟨?_, ?_, ?_, by decide⟩
  · unfold WarehouseStock.reserve_stock
    split <;> simp_all
  · unfold WarehouseStock.reserve_stock
    split <;> simp_all
  · unfold WarehouseStock.reserve_stock
    split <;> simp_all

/-- Witness for `C4_reserve_release`: reserving 4 out of 10 succeeds. -/
theorem C4_reserve_release_witness :
    ((⟨10, 0, 0⟩ : WarehouseStock).reserve_stock 4).2 = true :=
  ((C4_reserve_release ⟨10, 0, 0⟩ 4 (by decide)).1).mpr (by decide)

/-! ## Orders and payment transactions (src/orders/models.py, src/payments/models.py)

Field defaults mirror the Django model defaults. Timestamp columns that the
verified operations write (`paid_at`, `cancelled_at`, `shipped_date`,
`delivered_date`, `completed_at`, `failed_at`) are embedded as booleans
recording whether the column has been set. -/

/-- The `status` choices of `orders.models.Order.ORDER_STATUS`. -/
def ORDER_STATUS_KEYS : List String :=
  ["pending", "confirmed", "processing", "ready_to_ship", "shipped",
   "out_for_delivery", "delivered", "cancelled", "refunded", "on_hold"]

/-- The columns of `orders.models.Order` that the verified operations read or
write. -/
structure Order where
  status : String := "pending"
  payment_status : String := "pending"
  payment_id : Option String := none
  paid_at_set : Bool := false
  cancelled_at_set : Bool := false
  shipped_date_set : Bool := false
  delivered_date_set : Bool := false
  deriving Repr, DecidableEq

/-- An `orders.models.OrderStatusHistory` row (immutable audit entry). -/
structure OrderStatusHistory where
  old_status : String
  new_status : String
  notes : String
  deriving Repr, DecidableEq

/-- The columns of `payments.models.MpesaTransaction` that the verified
operations read or write. `transaction_date` abstracts the parsed provider
timestamp. -/
structure MpesaTransaction where
  checkout_request_id : String := ""
  status : String := "pending"
  result_code : Option Int := none
  result_desc : String := ""
  mpesa_receipt_number : Option String := none
  transaction_date : Option Int := none
  completed_at_set : Bool := false
  failed_at_set : Bool := false
  initiated_at : Int := 0
  deriving Repr, DecidableEq

namespace MpesaTransaction

/-- `is_pending` property: `status in ['pending', 'processing']`. -/
def is_pending (t : MpesaTransaction) : Bool :=
  t.status = "pending" ∨ t.status = "processing"

/-- `mark_completed(...)`: set terminal success fields and save. -/
def mark_completed (t : MpesaTransaction) (receipt : Option String)
    (date : Option Int) : MpesaTransaction :=
  { t with status := "completed", mpesa_receipt_number := receipt,
           transaction_date := date, completed_at_set := true,
           result_code := some 0,
           result_desc := "Transaction completed successfully" }

/-- `mark_failed(result_code, result_desc, ...)`: set terminal failure fields
and save. -/
def mark_failed (t : MpesaTransaction) (code : Option Int) (desc : String) :
    MpesaTransaction :=
  { t with status := "failed", result_code := code, result_desc := desc,
           failed_at_set := true }

end MpesaTransaction

/-! ## System state

One payment transaction, its (optional) linked order, the order's line items,
and the stock rows of the single warehouse the inventory signal handler
selects (`Warehouse.objects.filter(is_primary=True).first()`), keyed by
product id. `products` is the per-product aggregate `Product.stock_quantity`.
Append-only audit tables that the claims only count are embedded as
counters. -/

structure Sys where
  txn : MpesaTransaction := {}
  orderLinked : Bool := true
  order : Order := {}
  orderItems : List (Nat × Int) := []
  stocks : List (Nat × WarehouseStock) := []
  products : List (Nat × Int) := []
  history : List OrderStatusHistory := []
  movements : Nat := 0
  callbacks : Nat := 0
  webhookLogs : Nat := 0
  alerts : Nat := 0
  notifications : List String := []
  deriving Repr, DecidableEq

/-- Association-list lookup (a `get` by unique key). -/
def lookupEntry {α : Type} : List (Nat × α) → Nat → Option α
  | [], _ => none
  | (k, v) :: rest, key => if k = key then some v else lookupEntry rest key

/-- Association-list update of an existing key (a row `save`); rows are never
created by this operation. -/
def setEntry {α : Type} : List (Nat × α) → Nat → α → List (Nat × α)
  | [], _, _ => []
  | (k, w) :: rest, key, v =>
      if k = key then (k, v) :: rest else (k, w) :: setEntry rest key v

/-- Update-or-insert (used where the source calls `objects.create` /
`get_or_create`). -/
def setOrInsert {α : Type} (l : List (Nat × α)) (key : Nat) (v : α) :
    List (Nat × α) :=
  match lookupEntry l key with
  | some _ => setEntry l key v
  | none => l ++ [(key, v)]

/-- Aggregate warehouse quantity for a product
(`WarehouseStock.objects.filter(product=...).aggregate(Sum('quantity'))`,
`or 0`); the model carries the single warehouse the handlers use. -/
def warehouseTotal (stocks : List (Nat × WarehouseStock)) (pid : Nat) : Int :=
  match lookupEntry stocks pid with
  | some s => s.quantity
  | none => 0

/-- `WarehouseStock.save()`: writes the row and fires the `WarehouseStock`
`post_save` receivers. `update_product_stock_on_warehouse_change`
(src/inventory/signals.py:180) recomputes the product aggregate from the
warehouse totals and writes `Product.stock_quantity`. That product write
re-enters `products.signals.sync_warehouse_stock`, which changes state only
when the previous aggregate differed from the new total (`_stock_changed`):
on the states the restock path below produces (aggregate equal to the new
warehouse total) the re-entrant call exits at its guard, so it is not
unrolled here. `check_stock_levels` only creates `StockAlert` rows. -/
def wsSave (sys : Sys) (pid : Nat) (s : WarehouseStock) : Sys :=
  let stocks := setOrInsert sys.stocks pid s
  { sys with stocks := stocks,
             products := setEntry sys.products pid (warehouseTotal stocks pid) }

/-- `Product.save()` after an explicit `stock_quantity` write (the restock
loops in src/orders/views.py). `track_stock_changes` (pre_save) compares
against the stored row; `sync_warehouse_stock` (post_save,
src/products/signals.py) then pushes the difference into warehouse stock: an
increase is added to the primary warehouse row (created if absent), a
decrease is drained from it (`handle_stock_increase` /
`handle_stock_decrease`, specialised to the single modelled warehouse). The
warehouse write re-syncs the aggregate via `wsSave`. -/
def productSave (sys : Sys) (pid : Nat) (newVal : Int) : Sys :=
  let oldVal := (lookupEntry sys.products pid).getD 0
  let sys := { sys with products := setEntry sys.products pid newVal }
  if newVal = oldVal then sys
  else
    let diff := newVal - oldVal
    if 0 < diff then
      match lookupEntry sys.stocks pid with
      | some ws => wsSave sys pid { ws with quantity := ws.quantity + diff }
      | none => wsSave sys pid { quantity := diff }
    else
      match lookupEntry sys.stocks pid with
      | none => sys
      | some ws =>
          if 0 < ws.quantity then
            let deduction := min ws.quantity (-diff)
            wsSave sys pid { ws with quantity := ws.quantity - deduction }
          else sys

/-! ## Inventory signal receivers (src/inventory/signals.py) -/

/-- The exception every stock branch of `handle_order_inventory` raises:
`src/inventory/signals.py` line 4 imports `WarehouseStock, StockAlert, ...`
but never `Warehouse`, yet lines 97, 121 and 152 reference the bare name
`Warehouse`. Python resolves names at execution time, so entering any of the
three branches raises `NameError: name 'Warehouse' is not defined`
(rendered here without quotes). -/
def nameErrorWarehouse : String := "NameError: name Warehouse is not defined"

/-- The condition under which an `Order` save enters one of the three stock
branches of `handle_order_inventory` — exactly the branch guards at
src/inventory/signals.py:95, 120 and 151. -/
def warehouse_branch_entered (old_status new_status : String) : Prop :=
  (old_status = "pending" ∧
    (new_status = "confirmed" ∨ new_status = "processing")) ∨
  ((old_status = "confirmed" ∨ old_status = "processing" ∨
      old_status = "ready_to_ship") ∧ new_status = "shipped") ∨
  (new_status = "cancelled" ∨ new_status = "refunded")

instance (a b : String) : Decidable (warehouse_branch_entered a b) :=
  inferInstanceAs (Decidable (_ ∨ _))

/-- `handle_order_inventory` (post_save on `Order`,
src/inventory/signals.py:85), for an existing order whose `_previous_status`
was captured by `track_order_status_change`. Each of the three branches —
reserve on `pending → confirmed/processing`, fulfill on
`confirmed/processing/ready_to_ship → shipped`, release when the new status
is `cancelled`/`refunded` — begins with
`warehouse = Warehouse.objects.filter(is_primary=True).first() or ...`,
which raises `NameError` (`Warehouse` is never imported in this module)
before a single stock row is read or written. The reserve/fulfill/release
loops below those lines are dead code. Outside the three branches the
handler returns without doing anything. -/
def handle_order_inventory (old_status new_status : String) (sys : Sys) :
    Except String Sys :=
  if old_status = "pending" ∧ (new_status = "confirmed" ∨ new_status = "processing") then
    .error nameErrorWarehouse
  else if (old_status = "confirmed" ∨ old_status = "processing" ∨
           old_status = "ready_to_ship") ∧ new_status = "shipped" then
    .error nameErrorWarehouse
  else if new_status = "cancelled" ∨ new_status = "refunded" then
    .error nameErrorWarehouse
  else .ok sys

/-! ## Order signal receivers (src/orders/signals.py) -/

/-- `order_post_save` (src/orders/signals.py:23), branch for existing rows:
the handler re-fetches the order (`Order.objects.get(pk=instance.pk)`)
*after* the row has been saved, so the fetched row is the saved row. Returns
the status-history entries and the notifications the handler creates. -/
def order_post_save_existing (saved : Order) : List OrderStatusHistory × List String :=
  let old_instance := saved
  if old_instance.status ≠ saved.status then
    ([⟨old_instance.status, saved.status, "Status updated"⟩],
      if saved.status = "shipped" then ["order_shipped_email", "order_shipped_sms"]
      else if saved.status = "delivered" then ["order_delivered_email"]
      else if saved.status = "cancelled" then ["order_cancelled_email"]
      else [])
  else ([], [])

/-- `Order.save()` on an existing row: `track_order_status_change` (pre_save,
src/inventory/signals.py:167) captures the stored status, the UPDATE is
written, then the `post_save` receivers run. `handle_order_inventory`
raises `NameError` the moment it enters a stock branch, and Django's
`Signal.send` propagates a receiver's exception to the `save()` caller —
with the row already written. `order_post_save` contributes nothing on
existing rows (its refetched status always equals the saved one), so the
resulting state does not depend on which receiver Django runs first.
Returns the post-save state together with the propagating exception
message, if any. -/
def saveOrder (sys : Sys) (newOrder : Order) : Sys × Option String :=
  let previous_status := sys.order.status
  let sys := { sys with order := newOrder }
  match handle_order_inventory previous_status newOrder.status sys with
  | .error e => (sys, some e)
  | .ok sys2 =>
      let hn := order_post_save_existing newOrder
      ({ sys2 with history := sys2.history ++ hn.1,
                   notifications := sys2.notifications ++ hn.2 }, none)

/-! ## Callback processing (src/payments/services.py) -/

/-- The fields of an STK-push callback payload that `process_stk_callback`
reads (`Body.stkCallback` and its `CallbackMetadata` items). Missing JSON
keys are `none`. `transaction_date` is `none` when the metadata lacks a
parseable `TransactionDate` (`datetime.strptime` then raises, which the
processor's outer `except` catches). -/
structure StkPayload where
  checkout_request_id : Option String := none
  result_code : Option Int := none
  result_desc : String := ""
  mpesa_receipt_number : Option String := none
  transaction_date : Option Int := none
  deriving Repr, DecidableEq

/-- `MpesaCallbackProcessor._update_order_payment` (src/payments/services.py:385):
mark the order paid (recording the M-Pesa receipt), promote a `pending` order
to `confirmed`, save it (firing the order signal receivers), then append a
status-history entry recording `old payment status → 'paid'`. When the save
raises (a pending order promoted to `confirmed` enters the reserve branch;
a `cancelled`/`refunded` order enters the release branch), the exception
propagates before the history append at services.py:404 is reached — with
the order row already written. -/
def update_order_payment (sys : Sys) : Sys × Option String :=
  let order := sys.order
  let old_payment_status := order.payment_status
  let order := { order with
    payment_status := "paid",
    payment_id := sys.txn.mpesa_receipt_number,
    paid_at_set := true,
    status := if order.status = "pending" then "confirmed" else order.status }
  let r := saveOrder sys order
  match r.2 with
  | some e => (r.1, some e)
  | none =>
      ({ r.1 with history := r.1.history ++
          [⟨old_payment_status, "paid", "Payment received via M-Pesa"⟩] }, none)

/-- `MpesaCallbackProcessor.process_stk_callback`
(src/payments/services.py:286). A raw `MpesaCallback` row is always logged
first. A payload whose `CheckoutRequestID` matches no transaction returns
`false`. A transaction already `completed` or `failed` is left untouched
(idempotency guard). A success payload (`ResultCode == 0`) without a
parseable transaction date raises inside the handler, which its outer
`except` turns into `false` with no state applied; otherwise the transaction
is completed and, when linked, `_update_order_payment` runs — and when that
save raises (`NameError` from the inventory receiver), the outer `except`
again returns `false`, with the transaction already completed and the order
row already written but no history entry appended. Any other result code
marks the transaction failed. -/
def process_stk_callback (sys : Sys) (cb : StkPayload) : Sys × Bool :=
  let sys := { sys with callbacks := sys.callbacks + 1 }
  if cb.checkout_request_id ≠ some sys.txn.checkout_request_id then
    (sys, false)
  else if sys.txn.status = "completed" ∨ sys.txn.status = "failed" then
    (sys, true)
  else if cb.result_code = some 0 then
    match cb.transaction_date with
    | none => (sys, false)
    | some d =>
        let sys := { sys with
          txn := sys.txn.mark_completed cb.mpesa_receipt_number (some d) }
        if sys.orderLinked then
          let r := update_order_payment sys
          (r.1, r.2.isNone)
        else (sys, true)
  else
    ({ sys with txn := sys.txn.mark_failed cb.result_code cb.result_desc }, true)

/-- Accumulate decimal digit characters (`Python int()` on a digit string). -/
def digitsVal : List Char → Nat → Option Nat
  | [], acc => some acc
  | c :: rest, acc =>
      if c.isDigit then digitsVal rest (acc * 10 + (c.toNat - 48)) else none

/-- Python `int(str)` on the provider's textual result codes: an optionally
signed decimal numeral parses; anything else raises (here: `none`). -/
def strToInt? (s : String) : Option Int :=
  match s.data with
  | [] => none
  | '-' :: c :: rest => (digitsVal (c :: rest) 0).map (fun n => -(n : Int))
  | c :: rest => (digitsVal (c :: rest) 0).map (fun n => (n : Int))

/-- The fields of a `query_stk_status` provider response that the service and
the sweep read. `ResultCode` arrives as a string. `transaction_date` is
`none` when the response lacks a completion timestamp (an unparseable one
falls back to `timezone.now()` and still completes, so presence is what
matters). -/
structure StatusQueryResponse where
  result_code : Option String := none
  result_desc : Option String := none
  receipt : Option String := none
  transaction_date : Option Int := none
  deriving Repr, DecidableEq

/-- `MpesaPaymentService.check_payment_status`
(src/payments/services.py:447), applied to the modelled transaction with the
provider's response: only a transaction still `is_pending` is updated.
`ResultCode '0'` with both a receipt and a date completes it (updating a
linked order); `'1032'`/`'1037'` mark it `cancelled`/`timeout`; any other
numeric code marks it failed; a non-numeric code makes `int()` raise, which
the surrounding `except` swallows without updating. -/
def check_payment_status (sys : Sys) (resp : StatusQueryResponse) : Sys :=
  if sys.txn.is_pending then
    match resp.result_code with
    | none => sys
    | some rc =>
        if rc = "0" then
          match resp.receipt, resp.transaction_date with
          | some receipt, some d =>
              let sys := { sys with
                txn := sys.txn.mark_completed (some receipt) (some d) }
              -- a NameError propagating out of _update_order_payment is
              -- caught by the surrounding except after the transaction and
              -- order rows are already written; only the history append is
              -- lost
              if sys.orderLinked then (update_order_payment sys).1 else sys
          | _, _ => sys
        else if rc = "1032" ∨ rc = "1037" then
          { sys with txn := { sys.txn with
              status := if rc = "1032" then "cancelled" else "timeout",
              result_code := some (if rc = "1032" then 1032 else 1037),
              result_desc := resp.result_desc.getD "",
              failed_at_set := true } }
        else
          match strToInt? rc with
          | some n =>
              { sys with txn := sys.txn.mark_failed (some n) (resp.result_desc.getD "") }
          | none => sys
  else sys

/-! ## Webhook endpoints (src/payments/views.py) -/

/-- `mpesa_callback` (src/payments/views.py:433): log the webhook, process
the payload, and answer with the fixed acknowledgement body
`(ResultCode, ResultDesc)` whatever the processing returned. -/
def mpesa_callback (sys : Sys) (cb : StkPayload) : Sys × (Int × String) :=
  let sys := { sys with webhookLogs := sys.webhookLogs + 1 }
  let r := process_stk_callback sys cb
  (r.1, (0, "Accepted"))

/-- `mpesa_timeout` (src/payments/views.py:479): log the webhook, then set the
matching transaction's status to `timeout` — with no check of its current
status. A missing or unmatched `CheckoutRequestID` is ignored. -/
def mpesa_timeout (sys : Sys) (checkout_request_id : Option String) : Sys :=
  let sys := { sys with webhookLogs := sys.webhookLogs + 1 }
  match checkout_request_id with
  | none => sys
  | some cid =>
      if cid = sys.txn.checkout_request_id then
        { sys with txn := { sys.txn with
            status := "timeout",
            result_desc := "Transaction timed out",
            failed_at_set := true } }
      else sys

/-! ## Reconciliation sweep (src/payments/tasks.py) -/

/-- `check_pending_transactions` (src/payments/tasks.py:30), specialised to
the modelled transaction: the sweep selects transactions still in
`processing` initiated at least five minutes (300 s) before `now`, queries
the provider and applies the response. A `ResultCode` of `'0'`
("completed but callback was not received") only logs a warning; any other
truthy (non-empty) numeric code marks the transaction failed. The order and
its reservations are never touched. -/
def check_pending_transactions (sys : Sys) (now : Int)
    (resp : StatusQueryResponse) : Sys :=
  if sys.txn.status = "processing" ∧ sys.txn.initiated_at ≤ now - 300 then
    match resp.result_code with
    | none => sys
    | some rc =>
        if rc = "0" then sys
        else if rc ≠ "" then
          match strToInt? rc with
          | some n =>
              { sys with
                txn := sys.txn.mark_failed (some n) (resp.result_desc.getD "Unknown error") }
          | none => sys
        else sys
  else sys

/-! ## Order endpoints (src/orders/views.py) -/

/-- Outcome of a view action: success, a 400 response, or an unhandled
exception surfacing as a 500. -/
inductive ViewResult
  | ok
  | badRequest (message : String)
  | serverError (message : String)
  deriving Repr, DecidableEq

/-- `OrderViewSet.update_status` (src/orders/views.py:200): requires a status
value that is one of the `ORDER_STATUS` choices, stamps
`shipped_date`/`delivered_date` when first reaching those statuses, and
saves the order — with no transition-legality check. The view has no
try/except: when the save's inventory receiver raises `NameError` (any
transition entering a stock branch), the request errors out as a 500 with
the order row already written and the history append at views.py:236 never
reached. Otherwise an explicit status-history entry is appended. -/
def update_status (sys : Sys) (new_status : Option String) (notes : String) :
    Sys × ViewResult :=
  match new_status with
  | none => (sys, .badRequest "Status is required")
  | some s =>
      if s ∉ ORDER_STATUS_KEYS then (sys, .badRequest "Invalid status")
      else
        let old_status := sys.order.status
        let order := sys.order
        let order := { order with
          status := s,
          shipped_date_set := order.shipped_date_set ∨ s = "shipped",
          delivered_date_set := order.delivered_date_set ∨ s = "delivered" }
        let r := saveOrder sys order
        match r.2 with
        | some e => (r.1, .serverError e)
        | none =>
            ({ r.1 with history := r.1.history ++ [⟨old_status, s, notes⟩] }, .ok)

/-- `OrderViewSet.cancel` (src/orders/views.py:151) together with the
`OrderCancelSerializer` validation it runs first (`order.is_cancellable`
rejects `delivered`/`cancelled`/`refunded`/`shipped`). The save as
`cancelled` always enters the inventory receiver's release branch, which
raises `NameError`; the view's own `except Exception` (views.py:193) turns
that into a 400 response carrying the error text — with the order row
already written as `cancelled` but before the restock loop
(views.py:174-177) and the history append run. The restock/history code in
the `none` branch below is the translation of that unreached remainder:
each line item's quantity would be added to its product's `stock_quantity`
with no check of whether on-hand stock was ever decremented. (The source
sets `payment_status` to `refunded` before the save when a refund amount is
supplied; that conditional write is folded into the record literal.) -/
def cancel (sys : Sys) (restock_items : Bool) (refund_requested : Bool)
    (reason : String) : Sys × ViewResult :=
  if sys.order.status = "delivered" ∨ sys.order.status = "cancelled" ∨
     sys.order.status = "refunded" ∨ sys.order.status = "shipped" then
    (sys, .badRequest "This order cannot be cancelled.")
  else
    let old_status := sys.order.status
    let order := { sys.order with
      status := "cancelled", cancelled_at_set := true,
      payment_status :=
        if refund_requested then "refunded" else sys.order.payment_status }
    let r := saveOrder sys order
    match r.2 with
    | some e => (r.1, .badRequest e)
    | none =>
        let sys2 := if restock_items then
            r.1.orderItems.foldl (fun acc item =>
              productSave acc item.1
                ((lookupEntry acc.products item.1).getD 0 + item.2)) r.1
          else r.1
        ({ sys2 with history := sys2.history ++ [⟨old_status, "cancelled", reason⟩] },
          .ok)

/-! ## Characterisation of the save pipeline -/

lemma order_post_save_existing_nil (o : Order) :
    order_post_save_existing o = ([], []) := by
  unfold order_post_save_existing
  simp

lemma handle_order_inventory_eq (old_status new_status : String) (sys : Sys) :
    handle_order_inventory old_status new_status sys =
      if warehouse_branch_entered old_status new_status then
        Except.error nameErrorWarehouse
      else Except.ok sys := by
  unfold handle_order_inventory warehouse_branch_entered
  split_ifs <;> first | rfl | tauto

/-- Whether it raises or not, `Order.save()` leaves the state with exactly
the new row written: the inventory receiver raises before touching
anything, and the orders receiver appends nothing. -/
lemma saveOrder_fst (sys : Sys) (o : Order) :
    (saveOrder sys o).1 = { sys with order := o } := by
  unfold saveOrder
  dsimp only
  rw [handle_order_inventory_eq]
  split_ifs
  · rfl
  · rw [order_post_save_existing_nil]
    simp

/-- `Order.save()` raises exactly when the transition enters one of the
inventory receiver's stock branches. -/
lemma saveOrder_snd (sys : Sys) (o : Order) :
    (saveOrder sys o).2 =
      if warehouse_branch_entered sys.order.status o.status then
        some nameErrorWarehouse
      else none := by
  unfold saveOrder
  dsimp only
  rw [handle_order_inventory_eq]
  split_ifs <;> rfl

lemma saveOrder_history (sys : Sys) (o : Order) :
    (saveOrder sys o).1.history = sys.history := by
  rw [saveOrder_fst]

lemma saveOrder_notifications (sys : Sys) (o : Order) :
    (saveOrder sys o).1.notifications = sys.notifications := by
  rw [saveOrder_fst]

lemma saveOrder_order (sys : Sys) (o : Order) :
    (saveOrder sys o).1.order = o := by
  rw [saveOrder_fst]

lemma update_order_payment_txn (sys : Sys) :
    (update_order_payment sys).1.txn = sys.txn := by
  unfold update_order_payment
  dsimp only
  split <;> simp [saveOrder_fst]

/-- A payload that does not reach the apply step — unmatched correlation id,
already-terminal transaction, or a success payload whose metadata raises —
leaves everything except the raw-callback log unchanged. -/
lemma process_stk_callback_bump (sys : Sys) (cb : StkPayload)
    (h : cb.checkout_request_id ≠ some sys.txn.checkout_request_id ∨
         (sys.txn.status = "completed" ∨ sys.txn.status = "failed") ∨
         (cb.result_code = some 0 ∧ cb.transaction_date = none)) :
    (process_stk_callback sys cb).1 = { sys with callbacks := sys.callbacks + 1 } := by
  unfold process_stk_callback
  dsimp only
  rcases h with h | h | ⟨h0, hd⟩
  · rw [if_pos h]
  · by_cases hfound : cb.checkout_request_id ≠ some sys.txn.checkout_request_id
    · rw [if_pos hfound]
    · rw [if_neg hfound, if_pos h]
  · by_cases hfound : cb.checkout_request_id ≠ some sys.txn.checkout_request_id
    · rw [if_pos hfound]
    · rw [if_neg hfound]
      by_cases hterm : sys.txn.status = "completed" ∨ sys.txn.status = "failed"
      · rw [if_pos hterm]
      · rw [if_neg hterm, if_pos h0, hd]

/-- A matched success payload with a parseable date, applied to a
not-yet-terminal transaction, completes exactly that transaction. -/
lemma process_stk_callback_success_txn (sys : Sys) (cb : StkPayload) (d : Int)
    (hfound : cb.checkout_request_id = some sys.txn.checkout_request_id)
    (hterm : ¬ (sys.txn.status = "completed" ∨ sys.txn.status = "failed"))
    (h0 : cb.result_code = some 0) (hd : cb.transaction_date = some d) :
    (process_stk_callback sys cb).1.txn =
      sys.txn.mark_completed cb.mpesa_receipt_number (some d) := by
  unfold process_stk_callback
  dsimp only
  rw [if_neg (by simp [hfound]), if_neg hterm, if_pos h0, hd]
  dsimp only
  split
  · exact update_order_payment_txn _
  · rfl

/-! ## Claim C1: stability of terminal transaction statuses -/

/-- A transaction that completed successfully (shared concrete state). -/
def completedTxn : MpesaTransaction :=
  { checkout_request_id := "ws_CO_191220191020363925",
    status := "completed",
    result_code := some 0,
    result_desc := "Transaction completed successfully",
    mpesa_receipt_number := some "NLJ7RT61SV",
    transaction_date := some 20191219102115,
    completed_at_set := true }

/-- A system state holding `completedTxn` with no linked order. -/
def completedSys : Sys := { txn := completedTxn, orderLinked := false }

/-- **C1 counterexample.** The claim says no event application — including the
timeout webhook — changes a transaction that already left `processing` for a
terminal status. The timeout webhook (`mpesa_timeout`) writes
`status = 'timeout'` without checking the current status: applied to a
transaction already `completed`, it overwrites the terminal status. -/
theorem C1_counterexample :
    completedSys.txn.status = "completed" ∧
    (mpesa_timeout completedSys (some "ws_CO_191220191020363925")).txn.status
      = "timeout" := by
  constructor <;> rfl

/-- **C1 (amended).** The exactly-once exit from `processing` holds for the
inbound callback path and for the two polling paths, but not for the timeout
webhook (see the counterexample), and the callback guard protects only
`completed`/`failed` (not `cancelled`/`timeout`): for a transaction already
`completed` or `failed`, `process_stk_callback` leaves the transaction and
the order untouched, `check_payment_status` (which requires `is_pending`) is
the identity, and the reconciliation sweep (which selects only `processing`
rows) is the identity. -/
theorem C1_terminal_transaction_stability (sys : Sys) (cb : StkPayload)
    (resp : StatusQueryResponse) (now : Int)
    (h : sys.txn.status = "completed" ∨ sys.txn.status = "failed") :
    (process_stk_callback sys cb).1.txn = sys.txn ∧
    (process_stk_callback sys cb).1.order = sys.order ∧
    (process_stk_callback sys cb).1.history = sys.history ∧
    check_payment_status sys resp = sys ∧
    check_pending_transactions sys now resp = sys := by
  have hb := process_stk_callback_bump sys cb (Or.inr (Or.inl h))
  refine ⟨by rw [hb], by rw [hb], by rw [hb], ?_, ?_⟩
  · unfold check_payment_status
    rcases h with h | h <;> simp [MpesaTransaction.is_pending, h]
  · unfold check_pending_transactions
    rcases h with h | h <;> simp [h]

/-- Witness for `C1_terminal_transaction_stability` on `completedSys` with a
fresh duplicate callback payload. -/
theorem C1_terminal_transaction_stability_witness :
    (process_stk_callback completedSys
        { checkout_request_id := some "ws_CO_191220191020363925",
          result_code := some 0,
          mpesa_receipt_number := some "NLJ7RT61SV",
          transaction_date := some 20191219102115 }).1.txn = completedSys.txn ∧
    check_payment_status completedSys { result_code := some "1" } = completedSys := by
  have h := C1_terminal_transaction_stability completedSys
    { checkout_request_id := some "ws_CO_191220191020363925",
      result_code := some 0,
      mpesa_receipt_number := some "NLJ7RT61SV",
      transaction_date := some 20191219102115 }
    { result_code := some "1" } 0 (Or.inl rfl)
  exact ⟨h.1, h.2.2.2.1⟩

/-! ## Claim C2: idempotent successful callback -/

/-- **C2 (confirmed).** Applying the same successful callback payload twice
changes state on the first application only: the second call leaves the
transaction, the order (status and payment status), the status history, the
stock movements and the stock rows unchanged — only the append-only raw
callback log records the duplicate delivery. -/
theorem C2_callback_idempotent (sys : Sys) (cb : StkPayload)
    (hsucc : cb.result_code = some 0) :
    ((process_stk_callback (process_stk_callback sys cb).1 cb).1.txn
        = (process_stk_callback sys cb).1.txn) ∧
    ((process_stk_callback (process_stk_callback sys cb).1 cb).1.order
        = (process_stk_callback sys cb).1.order) ∧
    ((process_stk_callback (process_stk_callback sys cb).1 cb).1.history
        = (process_stk_callback sys cb).1.history) ∧
    ((process_stk_callback (process_stk_callback sys cb).1 cb).1.movements
        = (process_stk_callback sys cb).1.movements) ∧
    ((process_stk_callback (process_stk_callback sys cb).1 cb).1.stocks
        = (process_stk_callback sys cb).1.stocks) ∧
    ((process_stk_callback (process_stk_callback sys cb).1 cb).1.products
        = (process_stk_callback sys cb).1.products) := by
  by_cases hfound : cb.checkout_request_id = some sys.txn.checkout_request_id
  · by_cases hterm : sys.txn.status = "completed" ∨ sys.txn.status = "failed"
    · have h1 := process_stk_callback_bump sys cb (Or.inr (Or.inl hterm))
      have h2 := process_stk_callback_bump (process_stk_callback sys cb).1 cb
        (Or.inr (Or.inl (by rw [h1]; exact hterm)))
      rw [h2]
      exact ⟨rfl, rfl, rfl, rfl, rfl, rfl⟩
    · rcases hd : cb.transaction_date with _ | d
      · have h1 := process_stk_callback_bump sys cb (Or.inr (Or.inr ⟨hsucc, hd⟩))
        have h2 := process_stk_callback_bump (process_stk_callback sys cb).1 cb
          (Or.inr (Or.inr ⟨hsucc, hd⟩))
        rw [h2]
        exact ⟨rfl, rfl, rfl, rfl, rfl, rfl⟩
      · have h1 := process_stk_callback_success_txn sys cb d hfound hterm hsucc hd
        have h2 := process_stk_callback_bump (process_stk_callback sys cb).1 cb
          (Or.inr (Or.inl (Or.inl (by rw [h1]; rfl))))
        rw [h2]
        exact ⟨rfl, rfl, rfl, rfl, rfl, rfl⟩
  · have h1 := process_stk_callback_bump sys cb (Or.inl hfound)
    have h2 := process_stk_callback_bump (process_stk_callback sys cb).1 cb
      (Or.inl (by rw [h1]; exact hfound))
    rw [h2]
    exact ⟨rfl, rfl, rfl, rfl, rfl, rfl⟩

/-- A pending order with one line item, reserved stock, and a transaction
still in `processing` (shared concrete state). -/
def processingSys : Sys :=
  { txn := { checkout_request_id := "ws_CO_0001", status := "processing" },
    order := { status := "pending" },
    orderItems := [(1, 2)],
    stocks := [(1, ⟨10, 0, 0⟩)],
    products := [(1, 10)] }

/-- The successful callback payload for `processingSys`'s transaction. -/
def successPayload : StkPayload :=
  { checkout_request_id := some "ws_CO_0001",
    result_code := some 0,
    result_desc := "The service request is processed successfully.",
    mpesa_receipt_number := some "NLJ7RT61SW",
    transaction_date := some 20240101120000 }

/-- Witness for `C2_callback_idempotent`: the duplicate of a concrete
successful callback is a no-op on transaction, order, history, movements and
stock. -/
theorem C2_callback_idempotent_witness :
    ((process_stk_callback (process_stk_callback processingSys successPayload).1
        successPayload).1.txn
      = (process_stk_callback processingSys successPayload).1.txn) ∧
    ((process_stk_callback (process_stk_callback processingSys successPayload).1
        successPayload).1.order
      = (process_stk_callback processingSys successPayload).1.order) ∧
    ((process_stk_callback (process_stk_callback processingSys successPayload).1
        successPayload).1.history
      = (process_stk_callback processingSys successPayload).1.history) := by
  have h := C2_callback_idempotent processingSys successPayload rfl
  exact ⟨h.1, h.2.1, h.2.2.1⟩

/-! ## Claim C8: the callback endpoint acknowledges unconditionally -/

/-- **C8 (confirmed).** For every inbound payload — matched, unmatched,
malformed, success or failure — the callback endpoint responds with the
fixed acknowledgement `(ResultCode 0, 'Accepted')`; the processing outcome
is recorded on the webhook log, never in the response. -/
theorem C8_callback_ack_fixed (sys : Sys) (cb : StkPayload) :
    (mpesa_callback sys cb).2 = (0, "Accepted") := rfl

/-! ## Claim C9: the order post_save handler never records transitions -/

/-- **C9 (confirmed).** The `order_post_save` handler re-fetches the order
after the row was saved, so the fetched "old" status always equals the new
status: for every save of an existing order — in particular one whose status
differs from the stored row — the handler creates no `OrderStatusHistory`
entry and sends no status-change notification. History entries for
transitions exist only where call sites append them explicitly. -/
theorem C9_post_save_no_history (sys : Sys) (newOrder : Order)
    (hchanged : sys.order.status ≠ newOrder.status) :
    order_post_save_existing newOrder = ([], []) ∧
    (saveOrder sys newOrder).1.history = sys.history ∧
    (saveOrder sys newOrder).1.notifications = sys.notifications :=
  ⟨order_post_save_existing_nil _, saveOrder_history _ _,
    saveOrder_notifications _ _⟩

/-- Witness for `C9_post_save_no_history`: saving `processingSys`'s pending
order as shipped creates no history entry and no notification. -/
theorem C9_post_save_no_history_witness :
    (saveOrder processingSys { status := "shipped" }).1.history = [] ∧
    (saveOrder processingSys { status := "shipped" }).1.notifications = [] := by
  have h := C9_post_save_no_history processingSys { status := "shipped" }
    (by decide)
  exact ⟨h.2.1, h.2.2⟩

/-! ## Claim C5: order-line reservation is not all-or-nothing -/

/-- A pending two-line order whose second item cannot be covered:
item 1 wants 4 of product 1 (10 available), item 2 wants 7 of product 2
(only 5 available). -/
def twoLineSys : Sys :=
  { order := { status := "pending" },
    orderItems := [(1, 4), (2, 7)],
    stocks := [(1, ⟨10, 0, 0⟩), (2, ⟨5, 0, 0⟩)],
    products := [(1, 10), (2, 5)] }

/-- **C5 (code bug).** The claim (and the spec's all-or-nothing reservation
contract) presupposes that confirming an order reserves its line items and
handles per-item insufficiency. The code cannot do either: every entry into
`handle_order_inventory`'s reserve branch — and likewise the fulfil and
release branches — raises `NameError` at its first statement, because
`Warehouse` is never imported in src/inventory/signals.py, contradicting the
handler's own docstring ("Reserve or release inventory based on order
status"). So for every state, and in particular for the failing input
`twoLineSys` (two line items, the second short on stock), the confirmation
save propagates the error and not a single unit is reserved: stock rows are
untouched, and the claimed compensating release never has anything to
compensate. -/
theorem C5_reservation_never_runs (sys : Sys) :
    handle_order_inventory "pending" "confirmed" sys =
      Except.error nameErrorWarehouse ∧
    handle_order_inventory "pending" "processing" sys =
      Except.error nameErrorWarehouse ∧
    handle_order_inventory "confirmed" "shipped" sys =
      Except.error nameErrorWarehouse ∧
    handle_order_inventory "confirmed" "cancelled" sys =
      Except.error nameErrorWarehouse ∧
    (saveOrder twoLineSys { twoLineSys.order with status := "confirmed" }).2 =
      some nameErrorWarehouse ∧
    (saveOrder twoLineSys { twoLineSys.order with status := "confirmed" }).1.stocks =
      twoLineSys.stocks := by
  refine ⟨rfl, rfl, rfl, rfl, ?_, ?_⟩
  · rw [saveOrder_snd]
    rfl
  · rw [saveOrder_fst]

/-! ## Claim C6: no transition-legality check on status updates -/

/-- A delivered order (shared concrete state). -/
def deliveredSys : Sys :=
  { order := { status := "delivered", payment_status := "paid",
               delivered_date_set := true } }

/-- **C6 counterexample.** The claim says an illegal transition (for example
`delivered → pending`) fails with `IllegalTransition` and leaves the order
unchanged. `update_status` validates only that the requested value is one of
the `ORDER_STATUS` choices: on a delivered order, requesting `pending`
succeeds and rewinds the status. -/
theorem C6_counterexample :
    deliveredSys.order.status = "delivered" ∧
    (update_status deliveredSys (some "pending") "").2 = ViewResult.ok ∧
    (update_status deliveredSys (some "pending") "").1.order.status = "pending" := by
  refine ⟨rfl, rfl, rfl⟩

/-- **C6 (amended).** `update_status` rejects a request only when the status
value is missing or not one of the `ORDER_STATUS` choices (leaving all state
unchanged in those cases); every choice-listed status — whatever the current
status — is written to the order row, with no transition-legality check and
no `IllegalTransition` error. When the transition does not enter an
inventory stock branch the request succeeds and a history entry is appended;
when it does, the save raises `NameError` and the request errors out as a
500 with the status already written but no history entry. -/
theorem C6_update_status_unchecked (sys : Sys) (s : String) (notes : String) :
    ((update_status sys none notes).1 = sys ∧
      (update_status sys none notes).2 = ViewResult.badRequest "Status is required") ∧
    (s ∉ ORDER_STATUS_KEYS →
      (update_status sys (some s) notes).1 = sys ∧
      (update_status sys (some s) notes).2 = ViewResult.badRequest "Invalid status") ∧
    (s ∈ ORDER_STATUS_KEYS → ¬ warehouse_branch_entered sys.order.status s →
      (update_status sys (some s) notes).2 = ViewResult.ok ∧
      (update_status sys (some s) notes).1.order.status = s ∧
      (update_status sys (some s) notes).1.history =
        sys.history ++ [⟨sys.order.status, s, notes⟩]) ∧
    (s ∈ ORDER_STATUS_KEYS → warehouse_branch_entered sys.order.status s →
      (update_status sys (some s) notes).2 =
        ViewResult.serverError nameErrorWarehouse ∧
      (update_status sys (some s) notes).1.order.status = s ∧
      (update_status sys (some s) notes).1.history = sys.history) := by
  refine ⟨⟨rfl, rfl⟩, ?_, ?_, ?_⟩
  · intro hmem
    unfold update_status
    dsimp only
    rw [if_pos hmem]
    exact ⟨rfl, rfl⟩
  · intro hmem hno
    unfold update_status
    dsimp only
    rw [if_neg (not_not_intro hmem)]
    rw [saveOrder_snd]
    dsimp only
    rw [if_neg hno]
    refine ⟨rfl, ?_, ?_⟩
    · exact (congrArg Order.status (saveOrder_order sys _)).trans rfl
    · show (saveOrder sys _).1.history ++ _ = _
      rw [saveOrder_history]
  · intro hmem hyes
    unfold update_status
    dsimp only
    rw [if_neg (not_not_intro hmem)]
    rw [saveOrder_snd]
    dsimp only
    rw [if_pos hyes]
    refine ⟨rfl, ?_, ?_⟩
    · exact (congrArg Order.status (saveOrder_order sys _)).trans rfl
    · exact saveOrder_history sys _

/-- Witness for `C6_update_status_unchecked`: on the delivered order,
requesting `pending` is accepted and applied, while requesting `cancelled`
writes the status and then errors out of the save with no history entry. -/
theorem C6_update_status_unchecked_witness :
    ((update_status deliveredSys (some "pending") "rewound").2 = ViewResult.ok ∧
      (update_status deliveredSys (some "pending") "rewound").1.order.status
        = "pending") ∧
    ((update_status deliveredSys (some "cancelled") "cancel attempt").2
        = ViewResult.serverError nameErrorWarehouse ∧
      (update_status deliveredSys (some "cancelled") "cancel attempt").1.order.status
        = "cancelled") := by
  constructor
  · have h := (C6_update_status_unchecked deliveredSys "pending" "rewound").2.2.1
      (by decide) (by decide)
    exact ⟨h.1, h.2.1⟩
  · have h := (C6_update_status_unchecked deliveredSys "cancelled"
      "cancel attempt").2.2.2 (by decide) (by decide)
    exact ⟨h.1, h.2.1⟩

/-! ## Claim C7: the reconciliation sweep only marks the transaction -/

/-- A pending order with a stale `processing` transaction and a live
reservation (shared concrete state). -/
def staleSys : Sys :=
  { txn := { checkout_request_id := "ws_CO_0007", status := "processing",
             initiated_at := 0 },
    order := { status := "pending" },
    orderItems := [(1, 4)],
    stocks := [(1, ⟨10, 4, 0⟩)],
    products := [(1, 10)] }

/-- A terminal-failure provider response to a status query. -/
def failureResp : StatusQueryResponse :=
  { result_code := some "1", result_desc := some "The balance is insufficient" }

/-- **C7 counterexample.** The claim says that when the sweep receives a
terminal failure for a stale `processing` transaction of a pending order,
the transaction becomes `failed`, the order becomes `cancelled` and its
reservations are released. The sweep only calls `mark_failed`: on `staleSys`
(grace period long expired) the transaction does become `failed`, but the
order stays `pending` and the 4 reserved units stay reserved. -/
theorem C7_counterexample :
    staleSys.order.status = "pending" ∧
    staleSys.txn.status = "processing" ∧
    (check_pending_transactions staleSys 1000 failureResp).txn.status = "failed" ∧
    (check_pending_transactions staleSys 1000 failureResp).order.status = "pending" ∧
    (check_pending_transactions staleSys 1000 failureResp).stocks =
      [(1, ⟨10, 4, 0⟩)] := by
  refine ⟨rfl, rfl, ?_, ?_, ?_⟩ <;> rfl

/-- **C7 (amended).** When the periodic sweep polls a `processing`
transaction older than the five-minute grace period and the provider reports
a terminal failure, the transaction is marked `failed` (result code and
description recorded) — and nothing else happens: the order, the stock rows,
the product aggregates and the status history are all left untouched; no
cancellation is driven and no reservation is released. -/
theorem C7_reconciler_marks_failed_only (sys : Sys) (now : Int)
    (resp : StatusQueryResponse) (c : String) (n : Int)
    (horder : sys.order.status = "pending")
    (htxn : sys.txn.status = "processing")
    (hstale : sys.txn.initiated_at ≤ now - 300)
    (hrc : resp.result_code = some c)
    (hc0 : c ≠ "0") (hcne : c ≠ "") (hn : strToInt? c = some n) :
    (check_pending_transactions sys now resp).txn =
      sys.txn.mark_failed (some n) (resp.result_desc.getD "Unknown error") ∧
    (check_pending_transactions sys now resp).order = sys.order ∧
    (check_pending_transactions sys now resp).stocks = sys.stocks ∧
    (check_pending_transactions sys now resp).products = sys.products ∧
    (check_pending_transactions sys now resp).history = sys.history := by
  unfold check_pending_transactions
  rw [if_pos ⟨htxn, hstale⟩, hrc]
  dsimp only
  rw [if_neg hc0, if_pos hcne, hn]
  exact ⟨rfl, rfl, rfl, rfl, rfl⟩

/-- Witness for `C7_reconciler_marks_failed_only` on `staleSys`. -/
theorem C7_reconciler_marks_failed_only_witness :
    (check_pending_transactions staleSys 1000 failureResp).txn =
      staleSys.txn.mark_failed (some 1) "The balance is insufficient" ∧
    (check_pending_transactions staleSys 1000 failureResp).order =
      staleSys.order := by
  have h := C7_reconciler_marks_failed_only staleSys 1000 failureResp "1" 1
    rfl rfl (by decide) rfl (by decide) (by decide) (by decide)
  exact ⟨h.1, h.2.1⟩

/-! ## Claim C10: cancellation crashes before restock or release -/

/-- A confirmed paid order of 4 units with 10 on hand and 4 reserved
(shared concrete state). -/
def confirmedSys : Sys :=
  { order := { status := "confirmed", payment_status := "paid" },
    orderItems := [(1, 4)],
    stocks := [(1, ⟨10, 4, 0⟩)],
    products := [(1, 10)] }

/-- **C10 counterexample.** The claim says cancelling with `restock_items`
adds each line item's quantity to the product aggregate, on top of the
reservation release the inventory handler performs on the cancellation
save. Neither happens: on `confirmedSys` the cancellation save raises
`NameError` out of the release branch, and the endpoint's `except` answers
400 before the restock loop runs. The order row is nevertheless already
written as `cancelled`, while products, stock rows and history are all
untouched. -/
theorem C10_counterexample :
    (cancel confirmedSys true false "Order cancelled by customer").2 =
      ViewResult.badRequest nameErrorWarehouse ∧
    (cancel confirmedSys true false "Order cancelled by customer").1.products =
      [(1, 10)] ∧
    (cancel confirmedSys true false "Order cancelled by customer").1.stocks =
      [(1, ⟨10, 4, 0⟩)] ∧
    (cancel confirmedSys true false "Order cancelled by customer").1.history = [] ∧
    (cancel confirmedSys true false "Order cancelled by customer").1.order.status =
      "cancelled" := by
  refine ⟨rfl, rfl, rfl, rfl, rfl⟩

/-- **C10 (amended).** For every cancellable order, `cancel` persists the
`cancelled` status to the order row and then errors: the save's inventory
receiver raises `NameError` (`Warehouse` unimported) from the release
branch, the endpoint's `except` returns a 400 carrying the error text, and
neither the restock loop nor the history append is reached — no product
`stock_quantity` is incremented, no reservation is released, no history
entry is created, regardless of the `restock_items` and refund flags. -/
theorem C10_cancel_crashes_before_restock (sys : Sys)
    (restock_items refund_requested : Bool) (reason : String)
    (hc : ¬ (sys.order.status = "delivered" ∨ sys.order.status = "cancelled" ∨
             sys.order.status = "refunded" ∨ sys.order.status = "shipped")) :
    (cancel sys restock_items refund_requested reason).2 =
      ViewResult.badRequest nameErrorWarehouse ∧
    (cancel sys restock_items refund_requested reason).1.order.status =
      "cancelled" ∧
    (cancel sys restock_items refund_requested reason).1.products = sys.products ∧
    (cancel sys restock_items refund_requested reason).1.stocks = sys.stocks ∧
    (cancel sys restock_items refund_requested reason).1.history = sys.history := by
  unfold cancel
  rw [if_neg hc]
  dsimp only
  rw [saveOrder_snd]
  dsimp only
  rw [if_pos (show warehouse_branch_entered sys.order.status "cancelled" from
    Or.inr (Or.inr (Or.inl rfl)))]
  dsimp only
  refine ⟨rfl, ?_, ?_, ?_, ?_⟩
  · exact (congrArg Order.status (saveOrder_order sys _)).trans rfl
  · rw [saveOrder_fst]
  · rw [saveOrder_fst]
  · exact saveOrder_history sys _

/-- Witness for `C10_cancel_crashes_before_restock` on `confirmedSys`. -/
theorem C10_cancel_crashes_before_restock_witness :
    (cancel confirmedSys true false "Order cancelled by customer").2 =
      ViewResult.badRequest nameErrorWarehouse ∧
    (cancel confirmedSys true false "Order cancelled by customer").1.products =
      confirmedSys.products := by
  have h := C10_cancel_crashes_before_restock confirmedSys true false
    "Order cancelled by customer" (by decide)
  exact ⟨h.1, h.2.2.1⟩

end ShopBackend
